import Mathlib

/-! Verification of the mkcd configuration-resolution and orchestration engine.

The definitions below are a shallow embedding of the Go source of the
mkcd repository: `internal/config` (configuration store, profiles,
validation), `cmd/mkcd.go` (flag merging and orchestration),
`internal/utils/path.go` (path validator) and the filesystem-operations
layer.  Strings are modelled by Lean `String` (a list of characters,
matching Go byte strings on the ASCII paths used here), Go `int` by
`Int`, Go maps by association lists, and effectful functions by explicit
state passing or by parameters recording the outcome of the external
effect. -/

namespace Mkcd

/-- Settings layer, from `ProfileConfig` in internal/config
(part_002).  The Go zero value (all fields false or empty) stands for
the empty profile. -/
structure ProfileConfig where
  Git : Bool
  Editor : Bool
  Readme : Bool
  Gitignore : String
  Template : String
  Touch : List String
  License : String
deriving DecidableEq

/-- The empty profile, the Go zero value of ProfileConfig. -/
def emptyProfile : ProfileConfig :=
  { Git := false, Editor := false, Readme := false, Gitignore := ""
    Template := "", Touch := [], License := "" }

/-- Invocation-override layer: the command-line flag variables of
cmd/mkcd.go (gitInit, gitRemote, template, editorName, editorFlag,
touchFiles, readme, gitignore, license, mode, parentMode, symlink,
temp, expire). -/
structure MkcdFlags where
  gitInit : Bool
  gitRemote : String
  template : String
  editorName : String
  editorFlag : Bool
  touchFiles : List String
  readme : Bool
  gitignore : String
  license : String
  mode : String
  parentMode : String
  symlink : String
  temp : Bool
  expire : String
deriving DecidableEq

/-- Resolved plan, from `MkcdConfig` in cmd/mkcd.go. -/
structure MkcdConfig where
  Git : Bool
  GitRemote : String
  Template : String
  Editor : Bool
  Readme : Bool
  Gitignore : String
  License : String
  Touch : List String
  Mode : String
  ParentMode : String
  Symlink : String
  Temp : Bool
  Expire : String
deriving DecidableEq

/-- Embedding of `mergeConfigWithFlags` (cmd/mkcd.go lines 149-181):
build the merged record from the flags, then fill Template, Gitignore,
License and Touch from the profile when the flag value is empty. -/
def mergeConfigWithFlags (fl : MkcdFlags) (profileConfig : ProfileConfig) : MkcdConfig :=
  let merged : MkcdConfig :=
    { Git := fl.gitInit || profileConfig.Git
      GitRemote := fl.gitRemote
      Template := fl.template
      Editor := fl.editorFlag || profileConfig.Editor || (fl.editorName != "")
      Readme := fl.readme || profileConfig.Readme
      Gitignore := fl.gitignore
      License := fl.license
      Touch := fl.touchFiles
      Mode := fl.mode
      ParentMode := fl.parentMode
      Symlink := fl.symlink
      Temp := fl.temp
      Expire := fl.expire }
  let merged := if merged.Template == "" then { merged with Template := profileConfig.Template } else merged
  let merged := if merged.Gitignore == "" then { merged with Gitignore := profileConfig.Gitignore } else merged
  let merged := if merged.License == "" then { merged with License := profileConfig.License } else merged
  let merged := if merged.Touch.length == 0 then { merged with Touch := profileConfig.Touch } else merged
  merged

/-- Invocation layer that passes an editor name but leaves the boolean
editor flag off; all other options unset. -/
def editorNameFlags : MkcdFlags :=
  { gitInit := false, gitRemote := "", template := "", editorName := "vim"
    editorFlag := false, touchFiles := [], readme := false, gitignore := ""
    license := "", mode := "", parentMode := "", symlink := "", temp := false
    expire := "" }

/-- Boolean prefix test on character lists, modelling Go
strings.HasPrefix on the underlying bytes. -/
def listPref : List Char → List Char → Bool
  | [], _ => true
  | _ :: _, [] => false
  | a :: as, b :: bs => a == b && listPref as bs

/-- Go strings.HasPrefix: `hasPref p s` holds when `p` is a prefix of `s`. -/
def hasPref (p s : String) : Bool :=
  listPref p.data s.data

/-- Go strings.Contains on the underlying character lists. -/
def hasSubstr (p : List Char) : List Char → Bool
  | [] => listPref p []
  | c :: rest => listPref p (c :: rest) || hasSubstr p rest

/-- Embedding of `checkForbiddenPaths` (internal/utils/path.go lines
65-78): the absolute path must not equal any forbidden path and must not
start with a forbidden path followed by the separator.  Returns true
when the path passes (the Go function returns a nil error). -/
def checkForbiddenPaths (forbiddenPaths : List String) (absPath : String) : Bool :=
  forbiddenPaths.all fun forbidden =>
    !(absPath == forbidden) && !(hasPref (forbidden ++ "/") absPath)

/-- Embedding of `checkPathDepth` (internal/utils/path.go lines 81-95):
depth is the number of separators in the path, minus one when the path
is absolute (Go filepath.IsAbs, i.e. the path starts with the
separator); the check fails when depth is strictly greater than the
policy maximum.  Returns true when the path passes. -/
def checkPathDepth (maxDepth : Int) (path : String) : Bool :=
  if (if hasPref "/" path then ((path.data.count '/' : Nat) : Int) - 1
      else ((path.data.count '/' : Nat) : Int)) > maxDepth
  then false else true

/-- Join a list of path segments with the separator, so that a path with
k segments is the join of a k-element list. -/
def joinSegs : List (List Char) → List Char
  | [] => []
  | [s] => s
  | s :: rest => s ++ '/' :: joinSegs rest

/-- Forbidden path prefixes of the built-in default safety policy
(DefaultConfig in internal/config, part_002, lines 107-112). -/
def defaultForbiddenPaths : List String :=
  ["/", "/usr", "/etc", "/var", "/bin", "/sbin"]

/-- Core settings, from `CoreConfig` in internal/config (part_002). -/
structure CoreConfig where
  DefaultProfile : String
  Editor : String
  ShellIntegration : Bool
  HistoryLimit : Int
  BackupEnabled : Bool
  TempDir : String
deriving DecidableEq

/-- Git settings, from `GitConfig` in internal/config (part_002). -/
structure GitConfig where
  AutoInit : Bool
  DefaultBranch : String
  UserName : String
  UserEmail : String
  DefaultRemoteName : String
deriving DecidableEq

/-- Template settings, from `TemplatesConfig` in internal/config. -/
structure TemplatesConfig where
  Directory : String
  AutoUpdate : Bool
deriving DecidableEq

/-- Safety settings, from `SafetyConfig` in internal/config. -/
structure SafetyConfig where
  ConfirmOverwrites : Bool
  ConfirmDeletes : Bool
  MaxDepth : Int
  ForbiddenPaths : List String
deriving DecidableEq

/-- Output settings, from `OutputConfig` in internal/config. -/
structure OutputConfig where
  Colors : Bool
  Icons : Bool
  ProgressBars : Bool
deriving DecidableEq

/-- The full configuration, from `Config` in internal/config.  The Go
map from profile names to profiles is modelled as an association list
with unique keys. -/
structure Config where
  Core : CoreConfig
  Git : GitConfig
  Templates : TemplatesConfig
  Safety : SafetyConfig
  Output : OutputConfig
  Profiles : List (String × ProfileConfig)
deriving DecidableEq

/-- Embedding of `DefaultConfig` (internal/config, part_002, lines
84-147), parameterized by the home directory the Go code reads from the
environment. -/
def DefaultConfig (homeDir : String) : Config :=
  { Core :=
      { DefaultProfile := "default", Editor := "", ShellIntegration := true
        HistoryLimit := 100, BackupEnabled := false, TempDir := "/tmp/mkcd" }
    Git :=
      { AutoInit := false, DefaultBranch := "main", UserName := ""
        UserEmail := "", DefaultRemoteName := "origin" }
    Templates :=
      { Directory := (homeDir ++ "/.config/mkcd/templates"), AutoUpdate := false }
    Safety :=
      { ConfirmOverwrites := true, ConfirmDeletes := true, MaxDepth := 10
        ForbiddenPaths := defaultForbiddenPaths }
    Output := { Colors := true, Icons := true, ProgressBars := true }
    Profiles :=
      [("default",
         { Git := false, Editor := false, Readme := false, Gitignore := ""
           Template := "", Touch := [], License := "" }),
       ("dev",
         { Git := true, Editor := true, Readme := true, Gitignore := "general"
           Template := "basic-dev", Touch := [], License := "" }),
       ("nodejs",
         { Git := true, Editor := true, Readme := false, Gitignore := "node"
           Template := "nodejs", Touch := ["package.json", "index.js"]
           License := "" }),
       ("python",
         { Git := true, Editor := true, Readme := false, Gitignore := "python"
           Template := "python", Touch := ["main.py", "requirements.txt"]
           License := "" })] }

/-- Go filepath.IsAbs on unix: the path starts with the separator. -/
def isAbsStr (s : String) : Bool :=
  hasPref "/" s

/-- Validation failures of `Config.Validate`, one constructor per return
site of the Go function. -/
inductive ValidationError where
  | historyLimit
  | maxDepth
  | defaultProfileMissing (name : String)
  | forbiddenPathNotAbsolute (path : String)
deriving DecidableEq

/-- First forbidden path of the list that is not absolute, mirroring the
order of the Go loop over Safety.ForbiddenPaths. -/
def firstNonAbs : List String → Option String
  | [] => none
  | p :: rest => if isAbsStr p then firstNonAbs rest else some p

/-- Embedding of `Config.Validate` (internal/config, part_002, lines
230-255): the checks run in order and the first violation is returned;
`none` means the configuration is valid. -/
def Validate (c : Config) : Option ValidationError :=
  if c.Core.HistoryLimit < 0 then some ValidationError.historyLimit
  else if c.Safety.MaxDepth < 1 then some ValidationError.maxDepth
  else if c.Core.DefaultProfile ≠ "" ∧ (c.Profiles.lookup c.Core.DefaultProfile).isNone then
    some (ValidationError.defaultProfileMissing c.Core.DefaultProfile)
  else
    match firstNonAbs c.Safety.ForbiddenPaths with
    | some p => some (ValidationError.forbiddenPathNotAbsolute p)
    | none => none

/-- Embedding of the warning-collection phase of `runConfigValidate`
(part_001, lines 277-331): after a successful strict load it collects,
in one report, the supplementary warnings about a dangling default
profile, a missing template directory and a missing temp directory.
Filesystem existence of the two directories is passed in as the outcome
of the os.Stat calls. -/
def runConfigValidateWarnings (c : Config)
    (templateDirExists tempDirExists : Bool) : List String :=
  (if c.Core.DefaultProfile ≠ "" ∧ (c.Profiles.lookup c.Core.DefaultProfile).isNone
   then ["Default profile does not exist"] else []) ++
  (if c.Templates.Directory ≠ "" ∧ templateDirExists = false
   then ["Template directory does not exist"] else []) ++
  (if c.Core.TempDir ≠ "" ∧ tempDirExists = false
   then ["Temp directory does not exist"] else [])

/-- A configuration that violates both the history-limit rule and the
max-depth rule of validation. -/
def doublyInvalidConfig : Config :=
  { DefaultConfig "/home/user" with
    Core := { (DefaultConfig "/home/user").Core with HistoryLimit := -1 }
    Safety := { (DefaultConfig "/home/user").Safety with MaxDepth := 0 } }

/-- Configuration whose default profile name is dangling, used to show
the validate report collects several supplementary warnings at once. -/
def danglingDefaultConfig : Config :=
  { DefaultConfig "/home/user" with
    Core := { (DefaultConfig "/home/user").Core with DefaultProfile := "missing" } }

/-- Failures of `Config.DeleteProfile`. -/
inductive DeleteError where
  | isDefault (name : String)
  | notFound (name : String)
deriving DecidableEq

/-- Embedding of `Config.DeleteProfile` (internal/config, part_002,
lines 280-291).  The Go method mutates the receiver only on the success
path; the model returns the resulting configuration together with the
optional error, giving back the unchanged configuration on error. -/
def DeleteProfile (c : Config) (name : String) : Config × Option DeleteError :=
  if name = c.Core.DefaultProfile then (c, some (DeleteError.isDefault name))
  else if (c.Profiles.lookup name).isNone then (c, some (DeleteError.notFound name))
  else ({ c with Profiles := c.Profiles.filter fun kv => !(kv.1 == name) }, none)

/-- Where the configuration may come from: no file at the locator, a
file that fails TOML parsing, or a successfully parsed configuration. -/
inductive ConfigSource where
  | absent
  | unparsable
  | parsed (c : Config)

/-- Failures of `Load`. -/
inductive LoadError where
  | parseError
  | validationError (e : ValidationError)

/-- Embedding of `Load` (internal/config, part_002, lines 164-193): a
missing file yields the built-in defaults, a file that cannot be parsed
yields a parse error, and a parsed configuration is validated before
being returned. -/
def Load (homeDir : String) (src : ConfigSource) : Except LoadError Config :=
  match src with
  | ConfigSource.absent => Except.ok (DefaultConfig homeDir)
  | ConfigSource.unparsable => Except.error LoadError.parseError
  | ConfigSource.parsed c =>
    match Validate c with
    | some e => Except.error (LoadError.validationError e)
    | none => Except.ok c

/-- Kind of an existing filesystem entry, as seen by os.Stat. -/
inductive FsEntry where
  | dir
  | file
deriving DecidableEq

/-- Filesystem state for the operations layer: a table from paths to
existing entries; absence from the table is a stat failure. -/
abbrev FsState := List (String × FsEntry)

/-- Outcome reported by CreateDirectory, one constructor per return
site of the Go method. -/
inductive DirResult where
  | wouldCreate
  | alreadyExists
  | errNotDirectory
  | created
deriving DecidableEq

/-- Outcome reported by CreateFile. -/
inductive FileResult where
  | wouldCreate
  | created
deriving DecidableEq

/-- Embedding of `FileSystemOperations.CreateDirectory` (part_003,
lines 37-59): under dry-run the method returns a would-create report
before anything else; otherwise an existing directory is an idempotent
success, an existing non-directory is an error, and a missing path is
created. -/
def CreateDirectory (dryRun : Bool) (st : FsState) (path : String) :
    FsState × DirResult :=
  if dryRun then (st, DirResult.wouldCreate)
  else
    match st.lookup path with
    | some FsEntry.dir => (st, DirResult.alreadyExists)
    | some FsEntry.file => (st, DirResult.errNotDirectory)
    | none => ((path, FsEntry.dir) :: st, DirResult.created)

/-- Embedding of `FileSystemOperations.CreateFile` (part_003, lines
62-96): under dry-run the method returns a would-create report before
anything else; otherwise it backs up an existing file when backup is on
and writes the file. -/
def CreateFile (dryRun backup : Bool) (st : FsState) (path : String) :
    FsState × FileResult :=
  if dryRun then (st, FileResult.wouldCreate)
  else
    let st2 := if backup ∧ (st.lookup path).isSome
               then (path ++ ".backup", FsEntry.file) :: st else st
    ((path, FsEntry.file) :: st2, FileResult.created)

/-- Warning emitted for a touch file that could not be created
(cmd/mkcd.go line 326). -/
def touchWarning (fileName : String) : String :=
  "Failed to create file " ++ fileName

/-- Embedding of `createDirectoryStructure` (cmd/mkcd.go lines
303-331), with the outcomes of the external filesystem calls passed in:
a symlink request delegates to symlink creation, a directory-creation
failure aborts, and each requested touch file that fails to be created
only adds a warning.  The result is `none` on a hard failure and
`some warnings` on success. -/
def createDirectoryStructure (cfg : MkcdConfig) (symlinkOk dirOk : Bool)
    (fileOk : String → Bool) : Option (List String) :=
  if cfg.Symlink != "" then (if symlinkOk then some [] else none)
  else if dirOk = false then none
  else some ((cfg.Touch.filter fun f => fileOk f = false).map touchWarning)

/-- Embedding of `generateProjectFiles` (cmd/mkcd.go lines 334-365),
with the outcomes of the three generators passed in: a failure of any
requested generation (readme, gitignore, license) returns an error.
The result is false on a hard failure and true otherwise. -/
def generateProjectFiles (cfg : MkcdConfig)
    (readmeOk gitignoreOk licenseOk : Bool) : Bool :=
  if cfg.Readme ∧ readmeOk = false then false
  else if cfg.Gitignore != "" ∧ gitignoreOk = false then false
  else if cfg.License != "" ∧ licenseOk = false then false
  else true

/-- Resolved plan used by the C8 witness: readme, go gitignore, mit
license and two touch files requested. -/
def c8Plan : MkcdConfig :=
  { Git := false, GitRemote := "", Template := "", Editor := false
    Readme := true, Gitignore := "go", License := "mit"
    Touch := ["notes.txt", "bad.txt"], Mode := "", ParentMode := ""
    Symlink := "", Temp := false, Expire := "" }

/-- Split a character list into its separator-delimited segments (the
element scan of Go filepath.Clean). -/
def splitOnSep : List Char → List (List Char)
  | [] => [[]]
  | c :: rest =>
    if c = '/' then [] :: splitOnSep rest
    else
      match splitOnSep rest with
      | [] => [[c]]
      | s :: ss => (c :: s) :: ss

/-- Element processing of Go filepath.Clean (lexical processing, as
documented for path.Clean): empty and dot elements are dropped, a
dot-dot element pops the previous element when one is available,
is dropped at the root, and is kept in front of a relative path.  The
accumulator is the output stack in reverse order. -/
def cleanSegs (rooted : Bool) (segs : List (List Char)) : List (List Char) :=
  segs.foldl
    (fun stack seg =>
      if seg = [] ∨ seg = ['.'] then stack
      else if seg = ['.', '.'] then
        match stack with
        | [] => if rooted then [] else [['.', '.']]
        | top :: rest =>
          if top = ['.', '.'] then
            (if rooted then stack else ['.', '.'] :: stack)
          else rest
      else seg :: stack)
    []

/-- Model of Go filepath.Clean on unix: split into elements, process
them, and reassemble, returning the single dot for an empty result of a
relative path. -/
def cleanPath (path : List Char) : List Char :=
  if path = [] then ['.']
  else
    let rooted := listPref ['/'] path
    let stack := (cleanSegs rooted (splitOnSep path)).reverse
    if rooted then '/' :: joinSegs stack
    else if stack = [] then ['.']
    else joinSegs stack

/-- Embedding of `SanitizePath` (part_003, lines 204-219): clean the
path, reject it when the cleaned path still contains a dot-dot
sequence, reject an empty or dot result, and otherwise return the
cleaned path. -/
def SanitizePath (path : String) : Option String :=
  let cleaned := cleanPath path.data
  if hasSubstr ['.', '.'] cleaned then none
  else if cleaned = [] ∨ cleaned = ['.'] then none
  else some (String.mk cleaned)

/-- Character class of the RE2 escape for whitespace, used by the
dangerous-character patterns. -/
def isSpaceRE (c : Char) : Bool :=
  c = ' ' ∨ c = '\t' ∨ c = '\n' ∨ c = '\x0c' ∨ c = '\r'

/-- Embedding of `checkDangerousCharacters` (internal/utils/path.go
lines 98-117): the
four regular-expression patterns reject a null byte, the reserved
filename characters, leading or trailing whitespace, and three or more
consecutive dots.  Returns true when the path passes. -/
def checkDangerousCharacters (path : String) : Bool :=
  if path.data.contains '\x00' then false
  else if path.data.any (fun c =>
      c = '<' ∨ c = '>' ∨ c = ':' ∨ c = '\"' ∨ c = '|' ∨ c = '?' ∨ c = '*') then false
  else if ((path.data.head?.map isSpaceRE).getD false
        || (path.data.getLast?.map isSpaceRE).getD false) then false
  else if hasSubstr ['.', '.', '.'] path.data then false
  else true

/-- Embedding of `GetAbsolutePath` (part_003, lines 184-201) for paths
that do not use the home-directory shorthand: an absolute path is
cleaned, a relative path is joined onto the working directory and
cleaned (Go filepath.Abs). -/
def GetAbsolutePath (cwd path : String) : String :=
  if isAbsStr path then String.mk (cleanPath path.data)
  else String.mk (cleanPath (cwd.data ++ '/' :: path.data))

/-- Embedding of `PathValidator.ValidatePath` (internal/utils/path.go
lines 33-62): sanitize, resolve to an absolute path, then run the
forbidden-path check on the absolute path and the depth and
dangerous-character checks on the cleaned path.  Returns true when the
path is accepted. -/
def ValidatePath (forbiddenPaths : List String) (maxDepth : Int)
    (cwd path : String) : Bool :=
  match SanitizePath path with
  | none => false
  | some cleaned =>
    let absPath := GetAbsolutePath cwd cleaned
    if checkForbiddenPaths forbiddenPaths absPath = false then false
    else if checkPathDepth maxDepth cleaned = false then false
    else checkDangerousCharacters cleaned

/-- C1 counterexample: with the invocation boolean editor flag false and
the profile editor flag false, the merged Editor boolean is still true
when an editor name was passed at invocation, so the merged Editor
boolean is not the logical OR of the invocation flag and the profile
flag. -/
theorem C1_editor_not_or_counterexample :
    editorNameFlags.editorFlag = false ∧ emptyProfile.Editor = false ∧
    (mergeConfigWithFlags editorNameFlags emptyProfile).Editor = true := by
  decide

/-- C1 (amended): field-by-field characterization of the merge.  Git and
Readme are the OR of invocation flag and profile flag; Editor is the OR
of the invocation flag, the profile flag, and whether an editor name was
given at invocation; the scalars Template, Gitignore, License take the
invocation value when non-empty and otherwise the profile value; the
Touch list is the invocation list when non-empty and otherwise the
profile list, never a concatenation. -/
theorem C1_merge_precedence (fl : MkcdFlags) (p : ProfileConfig) :
    (mergeConfigWithFlags fl p).Git = (fl.gitInit || p.Git) ∧
    (mergeConfigWithFlags fl p).Readme = (fl.readme || p.Readme) ∧
    (mergeConfigWithFlags fl p).Editor
      = (fl.editorFlag || p.Editor || (fl.editorName != "")) ∧
    (mergeConfigWithFlags fl p).Template
      = (if fl.template == "" then p.Template else fl.template) ∧
    (mergeConfigWithFlags fl p).Gitignore
      = (if fl.gitignore == "" then p.Gitignore else fl.gitignore) ∧
    (mergeConfigWithFlags fl p).License
      = (if fl.license == "" then p.License else fl.license) ∧
    (mergeConfigWithFlags fl p).Touch
      = (if fl.touchFiles.length == 0 then p.Touch else fl.touchFiles) := by
  cases h1 : fl.template == "" <;>
  cases h2 : fl.gitignore == "" <;>
  cases h3 : fl.license == "" <;>
  cases h4 : fl.touchFiles.length == 0 <;>
  simp [mergeConfigWithFlags, h1, h2, h3, h4]

theorem listPref_append (l r : List Char) : listPref l (l ++ r) = true := by
  induction l with
  | nil => rfl
  | cons a as ih => simp [listPref, ih]

theorem count_joinSegs (segs : List (List Char)) (hne : segs ≠ [])
    (hfree : ∀ s ∈ segs, ('/' : Char) ∉ s) :
    (joinSegs segs).count '/' = segs.length - 1 := by
  induction segs with
  | nil => exact absurd rfl hne
  | cons s rest ih =>
    cases rest with
    | nil =>
      simp only [joinSegs, List.length_singleton, Nat.sub_self]
      exact List.count_eq_zero.mpr (hfree s (by simp))
    | cons t rest2 =>
      have hs : ('/' : Char) ∉ s := hfree s (by simp)
      have hrest : ∀ u ∈ t :: rest2, ('/' : Char) ∉ u := by
        intro u hu
        exact hfree u (List.mem_cons_of_mem s hu)
      have hcount := ih (by simp) hrest
      simp only [joinSegs, List.count_append, List.count_cons_self, hcount,
        List.count_eq_zero.mpr hs, List.length_cons]
      omega

theorem head_joinSegs (c : Char) (s' : List Char) (rest : List (List Char)) :
    (joinSegs ((c :: s') :: rest)).head? = some c := by
  cases rest <;> simp [joinSegs]

/-- C2 counterexample: the relative path a/b has exactly 2 segments,
which is MaxDepth + 1 for MaxDepth = 1, yet the depth check accepts it:
the code counts separators (one less than the segment count), so the
boundary claimed by the specification is off by one. -/
theorem C2_depth_counterexample :
    joinSegs [['a'], ['b']] = "a/b".data ∧ checkPathDepth 1 "a/b" = true := by
  decide

theorem checkPathDepth_mk (maxDepth : Int) (l : List Char) :
    checkPathDepth maxDepth (String.mk l)
      = (if (if listPref ['/'] l then ((l.count '/' : Nat) : Int) - 1
             else ((l.count '/' : Nat) : Int)) > maxDepth
         then false else true) := rfl

theorem ite_gt_iff (maxDepth d : Int) :
    ((if d > maxDepth then false else true) = true) ↔ d ≤ maxDepth := by
  split
  · simp
    omega
  · simp
    omega

theorem listPref_slash_false (l : List Char) (c : Char) (hc : c ≠ '/')
    (hhead : l.head? = some c) : listPref ['/'] l = false := by
  cases l with
  | nil => simp at hhead
  | cons d ds =>
    simp only [List.head?_cons, Option.some.injEq] at hhead
    subst hhead
    simp [listPref, beq_iff_eq]
    exact fun h => hc h.symm

/-- C2 (amended): for a path made of nonempty separator-free segments
(relative, or absolute with a leading separator), the depth check
accepts the path exactly when the number of segments is at most
MaxDepth + 1.  In particular a path with exactly MaxDepth segments is
accepted, a path with MaxDepth + 1 segments is still accepted, and
rejection starts at MaxDepth + 2 segments. -/
theorem C2_depth_boundary (maxDepth : Int) (segs : List (List Char))
    (hne : segs ≠ []) (hsegs : ∀ s ∈ segs, s ≠ [] ∧ ('/' : Char) ∉ s) :
    (checkPathDepth maxDepth (String.mk (joinSegs segs)) = true
        ↔ (segs.length : Int) ≤ maxDepth + 1) ∧
    (checkPathDepth maxDepth (String.mk ('/' :: joinSegs segs)) = true
        ↔ (segs.length : Int) ≤ maxDepth + 1) := by
  have hfree : ∀ s ∈ segs, ('/' : Char) ∉ s := fun s hs => (hsegs s hs).2
  have hcount := count_joinSegs segs hne hfree
  have hlen : 1 ≤ segs.length := by
    cases segs with
    | nil => exact absurd rfl hne
    | cons s rest => simp
  obtain ⟨c, hhead, hc⟩ : ∃ c, (joinSegs segs).head? = some c ∧ c ≠ '/' := by
    cases segs with
    | nil => exact absurd rfl hne
    | cons s rest =>
      have h1 := hsegs s (List.mem_cons_self s rest)
      cases s with
      | nil => exact absurd rfl h1.1
      | cons c s' =>
        exact ⟨c, head_joinSegs c s' rest,
          fun h => h1.2 (h ▸ List.mem_cons_self c s')⟩
  constructor
  · rw [checkPathDepth_mk, listPref_slash_false _ c hc hhead]
    simp only [Bool.false_eq_true, if_false, hcount, ite_gt_iff]
    omega
  · rw [checkPathDepth_mk]
    have hslash : listPref ['/'] ('/' :: joinSegs segs) = true := by
      simp [listPref]
    rw [hslash]
    simp only [if_true, List.count_cons_self, hcount, ite_gt_iff]
    omega

/-- Witness for C2_depth_boundary at MaxDepth 1 and the two-segment
path a/b: two segments is MaxDepth + 1, and the path is accepted. -/
theorem C2_depth_boundary_witness :
    checkPathDepth 1 (String.mk (joinSegs [['a'], ['b']])) = true :=
  (C2_depth_boundary 1 [['a'], ['b']] (by decide) (by decide)).1.mpr (by decide)

theorem all_eq_false_of_mem {α : Type} (l : List α) (f : α → Bool) (x : α)
    (hx : x ∈ l) (hf : f x = false) : l.all f = false := by
  rw [Bool.eq_false_iff]
  intro hall
  rw [List.all_eq_true] at hall
  simp [hall x hx] at hf

theorem data_append (a b : String) : (a ++ b).data = a.data ++ b.data := rfl

/-- C4: for every forbidden prefix P of the policy, the forbidden-path
check rejects the path equal to P and rejects every path of the form
P/rest nested under it, while a path that merely shares the string
prefix P without the separator (and is not P itself) passes the check
against P alone. -/
theorem C4_forbidden_boundary (fp : List String) (P : String) (hP : P ∈ fp) :
    checkForbiddenPaths fp P = false ∧
    (∀ rest : String, checkForbiddenPaths fp ((P ++ "/") ++ rest) = false) ∧
    (∀ path : String, path ≠ P → hasPref (P ++ "/") path = false →
      checkForbiddenPaths [P] path = true) := by
  refine ⟨?_, ?_, ?_⟩
  · unfold checkForbiddenPaths
    apply all_eq_false_of_mem fp _ P hP
    simp
  · intro rest
    unfold checkForbiddenPaths
    apply all_eq_false_of_mem fp _ P hP
    have hpref : hasPref (P ++ "/") ((P ++ "/") ++ rest) = true := by
      unfold hasPref
      rw [data_append]
      exact listPref_append (P ++ "/").data rest.data
    simp [hpref]
  · intro path hne hpref
    unfold checkForbiddenPaths
    simp [hpref, beq_iff_eq]
    exact hne

/-- Witness for C4_forbidden_boundary with the forbidden prefix /etc:
the path /etc itself is rejected, /etc/passwd is rejected, and the
sibling /etcetera is accepted. -/
theorem C4_forbidden_boundary_witness :
    checkForbiddenPaths ["/etc"] "/etc" = false ∧
    checkForbiddenPaths ["/etc"] (("/etc" ++ "/") ++ "passwd") = false ∧
    checkForbiddenPaths ["/etc"] "/etcetera" = true :=
  ⟨(C4_forbidden_boundary ["/etc"] "/etc" (by decide)).1,
   (C4_forbidden_boundary ["/etc"] "/etc" (by decide)).2.1 "passwd",
   (C4_forbidden_boundary ["/etc"] "/etc" (by decide)).2.2 "/etcetera"
     (by decide) (by decide)⟩

/-- C10: with the filesystem root listed as a forbidden prefix, the
check against the root clause alone rejects exactly the path equal to
the root: any other path that does not begin with a double separator
(every cleaned absolute path) is not treated as nested under the root,
because nesting requires the prefix followed by a separator.  Under the
full built-in default policy, /home/user/project passes the
forbidden-prefix check even though the root is listed. -/
theorem C10_root_clause :
    checkForbiddenPaths ["/"] "/" = false ∧
    (∀ path : String, hasPref "//" path = false → path ≠ "/" →
        checkForbiddenPaths ["/"] path = true) ∧
    checkForbiddenPaths defaultForbiddenPaths "/home/user/project" = true := by
  refine ⟨by decide, ?_, by decide⟩
  intro path hpref hne
  unfold checkForbiddenPaths
  have h2 : hasPref ("/" ++ "/") path = false := hpref
  simp [h2, beq_iff_eq]
  exact ⟨hne, hpref⟩

/-- Witness for C10_root_clause: the root itself is rejected while the
absolute path /home is accepted. -/
theorem C10_root_clause_witness :
    checkForbiddenPaths ["/"] "/" = false ∧
    checkForbiddenPaths ["/"] "/home" = true :=
  ⟨C10_root_clause.1, C10_root_clause.2.1 "/home" (by decide) (by decide)⟩

/-- C5 counterexample: a configuration violating two of the validation
rules at once is reported with only the first violation; the max-depth
violation is dropped, so no mode of the repository validation reports
all rule violations together. -/
theorem C5_counterexample :
    doublyInvalidConfig.Core.HistoryLimit < 0 ∧
    doublyInvalidConfig.Safety.MaxDepth < 1 ∧
    Validate doublyInvalidConfig = some ValidationError.historyLimit := by
  decide

/-- C5 (amended): validation of the four load-time rules is strict
only - Validate returns the first violation (a negative history limit
masks every later rule) - while the explicit validate subcommand
collects its three supplementary warnings (dangling default profile,
missing template directory, missing temp directory) in a single
report. -/
theorem C5_strict_and_collect :
    (∀ c : Config, c.Core.HistoryLimit < 0 →
        Validate c = some ValidationError.historyLimit) ∧
    (runConfigValidateWarnings danglingDefaultConfig false false).length = 3 := by
  constructor
  · intro c hc
    unfold Validate
    simp [hc]
  · decide

/-- Witness for C5_strict_and_collect at the doubly invalid
configuration. -/
theorem C5_strict_and_collect_witness :
    Validate doublyInvalidConfig = some ValidationError.historyLimit :=
  C5_strict_and_collect.1 doublyInvalidConfig (by decide)

/-- C6: deleting the profile currently designated as the default fails
with the conflict error and leaves the configuration (profile registry
and default-profile designation) unchanged, also when the registry does
contain that profile. -/
theorem C6_delete_default_conflict (c : Config)
    (hmem : (c.Profiles.lookup c.Core.DefaultProfile).isSome) :
    DeleteProfile c c.Core.DefaultProfile
      = (c, some (DeleteError.isDefault c.Core.DefaultProfile)) := by
  unfold DeleteProfile
  simp

/-- Witness for C6_delete_default_conflict at the built-in default
configuration, whose registry contains its default profile. -/
theorem C6_delete_default_conflict_witness :
    DeleteProfile (DefaultConfig "/home/user") "default"
      = (DefaultConfig "/home/user", some (DeleteError.isDefault "default")) :=
  C6_delete_default_conflict (DefaultConfig "/home/user") (by decide)

/-- C9: when no configuration source exists, load succeeds with the
built-in default configuration; when a source exists but cannot be
parsed, load fails with a parse error and returns no configuration at
all. -/
theorem C9_load_defaults_and_parse_error (homeDir : String) :
    Load homeDir ConfigSource.absent = Except.ok (DefaultConfig homeDir) ∧
    Load homeDir ConfigSource.unparsable = Except.error LoadError.parseError ∧
    (∀ c : Config, Load homeDir ConfigSource.unparsable ≠ Except.ok c) := by
  refine ⟨rfl, rfl, ?_⟩
  intro c h
  simp [Load] at h

/-- C7 counterexample: with a directory already present at the target,
the dry-run create-directory step reports would-create, not
already-exists, while the real run does detect the existing directory:
the precondition is not evaluated under dry-run. -/
theorem C7_counterexample :
    CreateDirectory true [("p", FsEntry.dir)] "p"
      = ([("p", FsEntry.dir)], DirResult.wouldCreate) ∧
    DirResult.wouldCreate ≠ DirResult.alreadyExists ∧
    CreateDirectory false [("p", FsEntry.dir)] "p"
      = ([("p", FsEntry.dir)], DirResult.alreadyExists) := by
  decide

/-- C7 (amended): under dry-run every mutating step short-circuits into
a descriptive would-create report with zero filesystem mutation, but the
report is unconditional: step preconditions are not evaluated, so an
already existing directory is still reported as would-create. -/
theorem C7_dry_run_short_circuit (st : FsState) (path : String) (backup : Bool) :
    CreateDirectory true st path = (st, DirResult.wouldCreate) ∧
    CreateFile true backup st path = (st, FileResult.wouldCreate) :=
  ⟨rfl, rfl⟩

/-- C8: with the directory created, touch-file failures are soft - the
step always succeeds, producing exactly one warning per failed touch
file and continuing - whereas a failure of requested readme, gitignore
or license generation makes the generation step fail hard. -/
theorem C8_soft_touch_hard_generation (cfg : MkcdConfig) (symlinkOk : Bool)
    (fileOk : String → Bool) (readmeOk gitignoreOk licenseOk : Bool)
    (hsym : cfg.Symlink = "") :
    (createDirectoryStructure cfg symlinkOk true fileOk).isSome = true ∧
    createDirectoryStructure cfg symlinkOk true fileOk
      = some ((cfg.Touch.filter fun f => fileOk f = false).map touchWarning) ∧
    (cfg.Readme = true → readmeOk = false →
        generateProjectFiles cfg readmeOk gitignoreOk licenseOk = false) ∧
    (cfg.Gitignore ≠ "" → gitignoreOk = false →
        generateProjectFiles cfg readmeOk gitignoreOk licenseOk = false) ∧
    (cfg.License ≠ "" → licenseOk = false →
        generateProjectFiles cfg readmeOk gitignoreOk licenseOk = false) := by
  refine ⟨?_, ?_, ?_, ?_, ?_⟩
  · simp [createDirectoryStructure, hsym]
  · simp [createDirectoryStructure, hsym]
  · intro h1 h2
    simp [generateProjectFiles, h1, h2]
  · intro h1 h2
    unfold generateProjectFiles
    split
    · rfl
    · simp [h1, h2]
  · intro h1 h2
    unfold generateProjectFiles
    split
    · rfl
    · split
      · rfl
      · simp [h1, h2]

/-- Witness for C8_soft_touch_hard_generation: one of two touch files
fails and the step still succeeds with exactly one warning, while a
failing readme generation fails the generation step. -/
theorem C8_soft_touch_hard_generation_witness :
    createDirectoryStructure c8Plan true true (fun f => f == "notes.txt")
      = some [touchWarning "bad.txt"] ∧
    generateProjectFiles c8Plan false true true = false :=
  ⟨(C8_soft_touch_hard_generation c8Plan true (fun f => f == "notes.txt")
      false true true rfl).2.1,
   (C8_soft_touch_hard_generation c8Plan true (fun f => f == "notes.txt")
      false true true rfl).2.2.1 rfl rfl⟩

/-- C3 counterexample: the path a/../b contains a parent-directory
traversal component, yet sanitization normalizes it to b and accepts
it, and full path validation under the built-in default policy accepts
it as well. -/
theorem C3_counterexample :
    SanitizePath "a/../b" = some "b" ∧
    ValidatePath defaultForbiddenPaths 10 "/home/user" "a/../b" = true := by
  decide

/-- C3 (amended): path validation rejects exactly the paths whose
cleaned form still contains a dot-dot sequence - traversals that
survive normalization, such as the leading traversal of ../b - while a
traversal that normalization resolves, as in a/../b, is silently
normalized away and the path accepted. -/
theorem C3_traversal_after_clean :
    (∀ p : String, hasSubstr ['.', '.'] (cleanPath p.data) = true →
      SanitizePath p = none ∧
      ValidatePath defaultForbiddenPaths 10 "/home/user" p = false) ∧
    SanitizePath "../b" = none ∧
    SanitizePath "a/../b" = some "b" := by
  refine ⟨?_, by decide, by decide⟩
  intro p h
  have hs : SanitizePath p = none := by
    unfold SanitizePath
    simp [h]
  refine ⟨hs, ?_⟩
  unfold ValidatePath
  rw [hs]

/-- Witness for C3_traversal_after_clean at the leading traversal ../b,
whose cleaned form keeps the dot-dot sequence. -/
theorem C3_traversal_after_clean_witness :
    SanitizePath "../b" = none ∧
    ValidatePath defaultForbiddenPaths 10 "/home/user" "../b" = false :=
  ⟨(C3_traversal_after_clean.1 "../b" (by decide)).1,
   (C3_traversal_after_clean.1 "../b" (by decide)).2⟩

/-- Witness for C1_merge_precedence at the editor-name invocation layer
against the empty profile. -/
theorem C1_merge_precedence_witness :
    (mergeConfigWithFlags editorNameFlags emptyProfile).Git = false ∧
    (mergeConfigWithFlags editorNameFlags emptyProfile).Editor = true :=
  ⟨(C1_merge_precedence editorNameFlags emptyProfile).1,
   (C1_merge_precedence editorNameFlags emptyProfile).2.2.1⟩

/-- Witness for C7_dry_run_short_circuit at a state already containing
the target directory. -/
theorem C7_dry_run_short_circuit_witness :
    CreateDirectory true [("q", FsEntry.dir)] "q"
      = ([("q", FsEntry.dir)], DirResult.wouldCreate) ∧
    CreateFile true false [("q", FsEntry.dir)] "q"
      = ([("q", FsEntry.dir)], FileResult.wouldCreate) :=
  C7_dry_run_short_circuit [("q", FsEntry.dir)] "q" false

/-- Witness for C9_load_defaults_and_parse_error at a concrete home
directory. -/
theorem C9_load_defaults_and_parse_error_witness :
    Load "/home/user" ConfigSource.absent
      = Except.ok (DefaultConfig "/home/user") ∧
    Load "/home/user" ConfigSource.unparsable
      ≠ Except.ok (DefaultConfig "/home/user") :=
  ⟨(C9_load_defaults_and_parse_error "/home/user").1,
   (C9_load_defaults_and_parse_error "/home/user").2.2 (DefaultConfig "/home/user")⟩

end Mkcd
